import Mathlib

/-!
Verification of the IPKCP command-line client (`src/main.cpp`).

The repository ships only `main.cpp`; the `IPKCPClient` class declared in
`client.hpp` is not part of the inspected sources, so its operations
(`connect`, `send`, `recv`, `disconnect`) are modelled from the spec's
Session state-machine description, parameterised by outcome oracles that
stand for the network.  The interactive loop, the argument handling and
the exit logic are translated directly from `main.cpp`.
-/

namespace IPKCP

/-- Session states, mirroring `IPKCPCState` used by `main.cpp`
(INIT / UP / DOWN / ERRORED per the spec's state machine). -/
inductive IPKCPCState
  | INIT
  | UP
  | DOWN
  | ERRORED
  deriving DecidableEq, Repr

/-- The client object: its state and its recorded last error message
(`client.error_msg` in `main.cpp`). -/
structure Session where
  state : IPKCPCState
  error_msg : String
  deriving DecidableEq, Repr

/-- Modelled from the spec: `disconnect()` "returns a short human-readable
status string" (the string lives in the missing `client.cpp`; its exact
content is irrelevant, only that it is the value printed). -/
def disconnectStatusMsg : String := "Disconnected."

/-- Modelled from the spec: `connect()` is valid only from `INIT`; on
success the session transitions to `UP`, on any transport failure it
transitions to `ERRORED`, records the message and returns failure.  The
oracle `o` is `none` for success, `some msg` for a failure with message
`msg`. -/
def Session.connect (s : Session) (o : Option String) : Session × Bool :=
  match o with
  | none => ({ state := IPKCPCState.UP, error_msg := s.error_msg }, true)
  | some m => ({ state := IPKCPCState.ERRORED, error_msg := m }, false)

/-- Outcome of one transport-level write, the oracle for `send`. -/
inductive SendOutcome
  | ok (bytes : Nat)
  | err (msg : String)
  deriving DecidableEq, Repr

/-- Outcome of one transport-level read, the oracle for `recv`:
a payload, an orderly close (empty result, no error), or a failure. -/
inductive RecvOutcome
  | ok (resp : String)
  | closed
  | err (msg : String)
  deriving DecidableEq, Repr

/-- Modelled from the spec: `send(text)` is valid only in `UP` (otherwise
it is "signaled as a failure, not performed"); it returns the count
written, or a negative result on failure after transitioning to
`ERRORED` and recording the message. -/
def Session.send (s : Session) (o : SendOutcome) : Session × Int :=
  if s.state = IPKCPCState.UP then
    match o with
    | SendOutcome.ok b => (s, (b : Int))
    | SendOutcome.err m => ({ state := IPKCPCState.ERRORED, error_msg := m }, -1)
  else (s, -1)

/-- Modelled from the spec: `receive()` is valid only in `UP`; an empty
result signals "no more communication possible" with the state left
unchanged, while a failure transitions to `ERRORED`, records the message
and also surfaces as an empty string to the caller. -/
def Session.recv (s : Session) (o : RecvOutcome) : Session × String :=
  if s.state = IPKCPCState.UP then
    match o with
    | RecvOutcome.ok r => (s, r)
    | RecvOutcome.closed => (s, "")
    | RecvOutcome.err m => ({ state := IPKCPCState.ERRORED, error_msg := m }, "")
  else (s, "")

/-- Modelled from the spec: `disconnect()` performs the farewell, closes
the endpoint, transitions `UP → DOWN` (the only path to `DOWN`) and
returns the status string for the caller to print. -/
def Session.disconnect (s : Session) : Session × String :=
  if s.state = IPKCPCState.UP then
    ({ state := IPKCPCState.DOWN, error_msg := s.error_msg }, disconnectStatusMsg)
  else (s, disconnectStatusMsg)

/-- One observable network call made by the interactive loop; `sendEv` and
`recvEv` record the session state at the moment the call is issued. -/
inductive Event
  | sendEv (line : String) (st : IPKCPCState)
  | recvEv (st : IPKCPCState)
  | discEv
  deriving DecidableEq, Repr

/-- The interactive loop of `main.cpp` (lines 122-158), recursing over the
list of stdin lines.  `sendO`/`recvO` give the transport outcome of the
`k`-th exchange; `quitAt i` is the value the atomic `quit` flag shows when
loaded during iteration `i` (SIGINT handling).  Returns the final session,
the strings printed to stdout, and the trace of network calls.

The end-of-input behaviour of the C++ code (`cin.eof()` checked before
`getline`; a `getline` at EOF yields an empty line and sets the eof bit,
so the quit store happens at the latest one iteration later) is collapsed
into the `[]` case: once the lines are exhausted the loop always reaches
`quit.store(true)` and hence `disconnect()` with the session unchanged,
producing the same output and trace. -/
def runLoop : Session → List String → (Nat → SendOutcome) → (Nat → RecvOutcome) →
    Nat → (Nat → Bool) → Nat → Session × List String × List Event
  | sess, [], _sendO, _recvO, _k, _quitAt, _iter =>
      if sess.state = IPKCPCState.UP then
        ((sess.disconnect).1, [(sess.disconnect).2], [Event.discEv])
      else (sess, [], [])
  | sess, l :: rest, sendO, recvO, k, quitAt, iter =>
      if sess.state = IPKCPCState.UP then
        if quitAt iter then
          ((sess.disconnect).1, [(sess.disconnect).2], [Event.discEv])
        else if l = "" then
          runLoop sess rest sendO recvO k quitAt (iter + 1)
        else
          let sres := sess.send (sendO k)
          if sres.2 < 0 then
            (sres.1, [], [Event.sendEv l sess.state])
          else
            let rres := sres.1.recv (recvO k)
            if rres.2 = "" then
              (rres.1, [], [Event.sendEv l sess.state, Event.recvEv sres.1.state])
            else
              let r := runLoop rres.1 rest sendO recvO (k + 1) quitAt (iter + 1)
              (r.1, rres.2 :: r.2.1,
                Event.sendEv l sess.state :: Event.recvEv sres.1.state :: r.2.2)
      else (sess, [], [])

/-- C `isspace` in the default locale, as consumed by `atoi`. -/
def isspaceC (c : Char) : Bool :=
  c = ' ' || c = '\t' || c = '\n' || c = '\x0b' || c = '\x0c' || c = '\r'

/-- Value of a maximal leading digit run, accumulator style (the digit
loop inside C `atoi`/`strtol`). -/
def digitsVal : List Char → Int → Int
  | [], acc => acc
  | c :: cs, acc =>
      if c.isDigit then digitsVal cs (acc * 10 + ((c.toNat : Int) - 48))
      else acc

/-- Sign handling and digit run of C `atoi`, after whitespace removal. -/
def atoiCore (cs : List Char) : Int :=
  match cs with
  | [] => 0
  | c :: rest =>
      if c = '-' then - digitsVal rest 0
      else if c = '+' then digitsVal rest 0
      else digitsVal (c :: rest) 0

/-- C `atoi` (base-10 `strtol` without the overflow clamping, which the
claims never exercise): skip leading whitespace, accept one optional sign,
read a maximal digit run; no digits means 0. -/
def atoi (s : String) : Int :=
  atoiCore (s.toList.dropWhile isspaceC)

/-- Whether a character list starts with a decimal digit. -/
def headDigit : List Char → Bool
  | [] => false
  | c :: _ => c.isDigit

/-- A string is "numeric" for `atoi`'s purposes when, after leading
whitespace and an optional sign, a digit follows; otherwise the digit
run is empty and `atoi` returns 0. -/
def numericStart (s : String) : Bool :=
  match s.toList.dropWhile isspaceC with
  | [] => false
  | c :: rest =>
      if c = '-' ∨ c = '+' then headDigit rest else c.isDigit

theorem digitsVal_zero (rest : List Char) (h : headDigit rest = false) :
    digitsVal rest 0 = 0 := by
  cases rest with
  | nil => rfl
  | cons c cs =>
      simp only [headDigit] at h
      unfold digitsVal
      rw [if_neg (by simp [h])]

/-- `atoi` of a non-numeric string is 0, so `main.cpp`'s `port == 0`
check cannot tell it apart from a missing `-p`. -/
theorem atoi_eq_zero_of_not_numericStart (s : String)
    (h : numericStart s = false) : atoi s = 0 := by
  unfold atoi
  unfold numericStart at h
  cases hds : s.toList.dropWhile isspaceC with
  | nil => rfl
  | cons c rest =>
      rw [hds] at h
      dsimp only at h
      simp only [atoiCore]
      by_cases hminus : c = '-'
      · rw [if_pos hminus]
        rw [if_pos (Or.inl hminus)] at h
        rw [digitsVal_zero rest h]
        rfl
      · by_cases hplus : c = '+'
        · rw [if_neg hminus, if_pos hplus]
          rw [if_pos (Or.inr hplus)] at h
          exact digitsVal_zero rest h
        · rw [if_neg hminus, if_neg hplus]
          rw [if_neg (by simp [hminus, hplus])] at h
          exact digitsVal_zero (c :: rest) (by simpa [headDigit] using h)

/-- One step of the `getopt(argc, argv, "h:p:m:")` loop in `main.cpp`:
a recognised option with its argument, or anything that makes `getopt`
return an unrecognised result (unknown option, missing argument), which
the `default:` case turns into usage + failure. -/
inductive OptEvent
  | h (v : String)
  | p (v : String)
  | m (v : String)
  | invalid
  deriving DecidableEq, Repr

/-- The option-processing `while` loop of `main.cpp` (lines 64-80): fold
the getopt events over `hostname`/`port`/`protocol` (initially `""`, `0`,
`""`; `-p` applies `atoi`); an invalid event aborts with `none` (usage
path). -/
def foldOptsAux : List OptEvent → String → Int → String → Option (String × Int × String)
  | [], host, port, proto => some (host, port, proto)
  | OptEvent.h v :: rest, _, port, proto => foldOptsAux rest v port proto
  | OptEvent.p v :: rest, host, _, proto => foldOptsAux rest host (atoi v) proto
  | OptEvent.m v :: rest, host, port, _ => foldOptsAux rest host port v
  | OptEvent.invalid :: _, _, _, _ => none

/-- Option processing from the initial values of `main.cpp`. -/
def foldOpts (opts : List OptEvent) : Option (String × Int × String) :=
  foldOptsAux opts "" 0 ""

/-- The usage line printed by `main.cpp`. -/
def usageMsg : String := "  Usage: ./ipkcpc -h <host> -p <port> -m <mode>"

/-- Observable result of one program run: exit code, stdout lines, stderr
lines, plus instrumentation mirroring facts a tester can observe: whether
the `IPKCPClient` constructor ran, whether `connect()` was called, the
trace of loop network calls, and the client state / `error_msg` at exit
(`none` when no client was ever constructed). -/
structure ProgResult where
  exitCode : Nat
  stdout : List String
  stderr : List String
  sessionCreated : Bool
  connectAttempted : Bool
  events : List Event
  finalState : Option IPKCPCState
  finalErrMsg : String
  deriving DecidableEq, Repr

/-- Lines 161-166 of `main.cpp`: after the loop, a final state other than
`DOWN` prints `!ERR! ` + `error_msg` to stderr and exits 1; `DOWN` exits
0. -/
def afterLoop (r : Session × List String × List Event) : ProgResult :=
  if ¬ r.1.state = IPKCPCState.DOWN then
    { exitCode := 1, stdout := r.2.1, stderr := ["!ERR! " ++ r.1.error_msg],
      sessionCreated := true, connectAttempted := true, events := r.2.2,
      finalState := some r.1.state, finalErrMsg := r.1.error_msg }
  else
    { exitCode := 0, stdout := r.2.1, stderr := [],
      sessionCreated := true, connectAttempted := true, events := r.2.2,
      finalState := some r.1.state, finalErrMsg := r.1.error_msg }

/-- `main` of `main.cpp`: option folding, the four validation checks, the
client construction (`ctorErr` is the spec-modelled constructor outcome:
`some msg` leaves the fresh client `ERRORED` as checked at lines 110-113),
`connect()` (outcome oracle `connErr`), the interactive loop, and the
final `DOWN` check deciding the exit code. -/
def ipkcpcMain (opts : List OptEvent) (ctorErr : Option String) (connErr : Option String)
    (lines : List String) (sendO : Nat → SendOutcome) (recvO : Nat → RecvOutcome)
    (quitAt : Nat → Bool) : ProgResult :=
  match foldOpts opts with
  | none =>
      { exitCode := 1, stdout := [], stderr := [usageMsg], sessionCreated := false,
        connectAttempted := false, events := [], finalState := none, finalErrMsg := "" }
  | some (host, port, proto) =>
      if host = "" then
        { exitCode := 1, stdout := [], stderr := ["!ERR! Host not specified!", usageMsg],
          sessionCreated := false, connectAttempted := false, events := [],
          finalState := none, finalErrMsg := "" }
      else if port = 0 then
        { exitCode := 1, stdout := [], stderr := ["!ERR! Port not specified!", usageMsg],
          sessionCreated := false, connectAttempted := false, events := [],
          finalState := none, finalErrMsg := "" }
      else if proto = "" then
        { exitCode := 1, stdout := [], stderr := ["!ERR! Mode not specified!", usageMsg],
          sessionCreated := false, connectAttempted := false, events := [],
          finalState := none, finalErrMsg := "" }
      else if ¬ proto = "tcp" ∧ ¬ proto = "udp" then
        { exitCode := 1, stdout := [],
          stderr := ["!ERR! Invalid mode, expected tcp or udp!", usageMsg],
          sessionCreated := false, connectAttempted := false, events := [],
          finalState := none, finalErrMsg := "" }
      else
        match ctorErr with
        | some msg =>
            { exitCode := 1, stdout := [], stderr := ["!ERR! " ++ msg],
              sessionCreated := true, connectAttempted := false, events := [],
              finalState := some IPKCPCState.ERRORED, finalErrMsg := msg }
        | none =>
            match Session.connect { state := IPKCPCState.INIT, error_msg := "" } connErr with
            | (s1, okb) =>
              if okb = false ∨ s1.state = IPKCPCState.ERRORED then
                { exitCode := 1, stdout := [], stderr := ["!ERR! " ++ s1.error_msg],
                  sessionCreated := true, connectAttempted := true, events := [],
                  finalState := some s1.state, finalErrMsg := s1.error_msg }
              else
                afterLoop (runLoop s1 lines sendO recvO 0 quitAt 0)

/-- The lines handed to `send` along a trace, in order. -/
def sentLines : List Event → List String
  | [] => []
  | Event.sendEv l _ :: rest => l :: sentLines rest
  | Event.recvEv _ :: rest => sentLines rest
  | Event.discEv :: rest => sentLines rest

/-- Shape of the traces the loop can emit: zero or more completed
`send`+`receive` exchanges of non-empty lines, ending in nothing (peer
closed / failure after a receive), a lone disconnect, or a final `send`
without its `receive` (send failed).  Encodes "non-empty lines trigger
exactly one send followed by at most one receive". -/
inductive LoopTrace : List Event → Prop
  | done : LoopTrace []
  | disc : LoopTrace [Event.discEv]
  | sendFail (l : String) (st : IPKCPCState) : ¬ l = "" → LoopTrace [Event.sendEv l st]
  | step (l : String) (st st' : IPKCPCState) (rest : List Event) :
      ¬ l = "" → LoopTrace rest →
      LoopTrace (Event.sendEv l st :: Event.recvEv st' :: rest)

/-- A network oracle pair under which every exchange succeeds with a
non-empty response: the session then never leaves `UP` inside an
exchange, so the loop can only end through cancellation/end-of-input. -/
def GoodNet (sendO : Nat → SendOutcome) (recvO : Nat → RecvOutcome) : Prop :=
  ∀ j : Nat, (∃ b, sendO j = SendOutcome.ok b) ∧
    ∃ r, recvO j = RecvOutcome.ok r ∧ ¬ r = ""

/- Equation lemmas for `runLoop`, one per loop branch of `main.cpp`. -/

theorem runLoop_not_up (sess : Session) (lines : List String)
    (sendO : Nat → SendOutcome) (recvO : Nat → RecvOutcome) (k : Nat)
    (quitAt : Nat → Bool) (iter : Nat) (h : ¬ sess.state = IPKCPCState.UP) :
    runLoop sess lines sendO recvO k quitAt iter = (sess, [], []) := by
  cases lines <;> simp [runLoop, h]

theorem runLoop_nil (sess : Session)
    (sendO : Nat → SendOutcome) (recvO : Nat → RecvOutcome) (k : Nat)
    (quitAt : Nat → Bool) (iter : Nat) (hUP : sess.state = IPKCPCState.UP) :
    runLoop sess [] sendO recvO k quitAt iter =
      ({ state := IPKCPCState.DOWN, error_msg := sess.error_msg },
        [disconnectStatusMsg], [Event.discEv]) := by
  simp [runLoop, Session.disconnect, hUP]

theorem runLoop_quit (sess : Session) (lines : List String)
    (sendO : Nat → SendOutcome) (recvO : Nat → RecvOutcome) (k : Nat)
    (quitAt : Nat → Bool) (iter : Nat) (hUP : sess.state = IPKCPCState.UP)
    (hq : quitAt iter = true) :
    runLoop sess lines sendO recvO k quitAt iter =
      ({ state := IPKCPCState.DOWN, error_msg := sess.error_msg },
        [disconnectStatusMsg], [Event.discEv]) := by
  cases lines <;> simp [runLoop, Session.disconnect, hUP, hq]

theorem runLoop_empty_line (sess : Session) (rest : List String)
    (sendO : Nat → SendOutcome) (recvO : Nat → RecvOutcome) (k : Nat)
    (quitAt : Nat → Bool) (iter : Nat) (hUP : sess.state = IPKCPCState.UP)
    (hq : quitAt iter = false) :
    runLoop sess ("" :: rest) sendO recvO k quitAt iter =
      runLoop sess rest sendO recvO k quitAt (iter + 1) := by
  simp [runLoop, hUP, hq]

theorem runLoop_send_err (sess : Session) (l : String) (rest : List String)
    (sendO : Nat → SendOutcome) (recvO : Nat → RecvOutcome) (k : Nat)
    (quitAt : Nat → Bool) (iter : Nat) (msg : String)
    (hUP : sess.state = IPKCPCState.UP) (hq : quitAt iter = false)
    (hl : ¬ l = "") (hs : sendO k = SendOutcome.err msg) :
    runLoop sess (l :: rest) sendO recvO k quitAt iter =
      ({ state := IPKCPCState.ERRORED, error_msg := msg }, [],
        [Event.sendEv l sess.state]) := by
  simp [runLoop, Session.send, hUP, hq, hl, hs]

theorem runLoop_recv_closed (sess : Session) (l : String) (rest : List String)
    (sendO : Nat → SendOutcome) (recvO : Nat → RecvOutcome) (k : Nat)
    (quitAt : Nat → Bool) (iter : Nat) (b : Nat)
    (hUP : sess.state = IPKCPCState.UP) (hq : quitAt iter = false)
    (hl : ¬ l = "") (hs : sendO k = SendOutcome.ok b)
    (hr : recvO k = RecvOutcome.closed) :
    runLoop sess (l :: rest) sendO recvO k quitAt iter =
      (sess, [], [Event.sendEv l sess.state, Event.recvEv sess.state]) := by
  simp [runLoop, Session.send, Session.recv, hUP, hq, hl, hs, hr]

theorem runLoop_recv_err (sess : Session) (l : String) (rest : List String)
    (sendO : Nat → SendOutcome) (recvO : Nat → RecvOutcome) (k : Nat)
    (quitAt : Nat → Bool) (iter : Nat) (b : Nat) (msg : String)
    (hUP : sess.state = IPKCPCState.UP) (hq : quitAt iter = false)
    (hl : ¬ l = "") (hs : sendO k = SendOutcome.ok b)
    (hr : recvO k = RecvOutcome.err msg) :
    runLoop sess (l :: rest) sendO recvO k quitAt iter =
      ({ state := IPKCPCState.ERRORED, error_msg := msg }, [],
        [Event.sendEv l sess.state, Event.recvEv sess.state]) := by
  simp [runLoop, Session.send, Session.recv, hUP, hq, hl, hs, hr]

theorem runLoop_recv_ok (sess : Session) (l : String) (rest : List String)
    (sendO : Nat → SendOutcome) (recvO : Nat → RecvOutcome) (k : Nat)
    (quitAt : Nat → Bool) (iter : Nat) (b : Nat) (resp : String)
    (hUP : sess.state = IPKCPCState.UP) (hq : quitAt iter = false)
    (hl : ¬ l = "") (hs : sendO k = SendOutcome.ok b)
    (hr : recvO k = RecvOutcome.ok resp) (hresp : ¬ resp = "") :
    runLoop sess (l :: rest) sendO recvO k quitAt iter =
      ((runLoop sess rest sendO recvO (k + 1) quitAt (iter + 1)).1,
        resp :: (runLoop sess rest sendO recvO (k + 1) quitAt (iter + 1)).2.1,
        Event.sendEv l sess.state :: Event.recvEv sess.state ::
          (runLoop sess rest sendO recvO (k + 1) quitAt (iter + 1)).2.2) := by
  simp [runLoop, Session.send, Session.recv, hUP, hq, hl, hs, hr, hresp]

theorem runLoop_recv_ok_empty (sess : Session) (l : String) (rest : List String)
    (sendO : Nat → SendOutcome) (recvO : Nat → RecvOutcome) (k : Nat)
    (quitAt : Nat → Bool) (iter : Nat) (b : Nat)
    (hUP : sess.state = IPKCPCState.UP) (hq : quitAt iter = false)
    (hl : ¬ l = "") (hs : sendO k = SendOutcome.ok b)
    (hr : recvO k = RecvOutcome.ok "") :
    runLoop sess (l :: rest) sendO recvO k quitAt iter =
      (sess, [], [Event.sendEv l sess.state, Event.recvEv sess.state]) := by
  simp [runLoop, Session.send, Session.recv, hUP, hq, hl, hs, hr]

/-- Every trace the loop emits has the per-line send/receive shape. -/
theorem runLoop_trace (lines : List String) :
    ∀ (sess : Session) (sendO : Nat → SendOutcome) (recvO : Nat → RecvOutcome)
      (k : Nat) (quitAt : Nat → Bool) (iter : Nat),
      LoopTrace (runLoop sess lines sendO recvO k quitAt iter).2.2 := by
  induction lines with
  | nil =>
      intro sess sendO recvO k quitAt iter
      by_cases hUP : sess.state = IPKCPCState.UP
      · rw [runLoop_nil sess sendO recvO k quitAt iter hUP]
        exact LoopTrace.disc
      · rw [runLoop_not_up sess [] sendO recvO k quitAt iter hUP]
        exact LoopTrace.done
  | cons l rest ih =>
      intro sess sendO recvO k quitAt iter
      by_cases hUP : sess.state = IPKCPCState.UP
      · by_cases hq : quitAt iter = true
        · rw [runLoop_quit sess (l :: rest) sendO recvO k quitAt iter hUP hq]
          exact LoopTrace.disc
        · rw [Bool.not_eq_true] at hq
          by_cases hl : l = ""
          · subst hl
            rw [runLoop_empty_line sess rest sendO recvO k quitAt iter hUP hq]
            exact ih sess sendO recvO k quitAt (iter + 1)
          · cases hs : sendO k with
            | err m =>
                rw [runLoop_send_err sess l rest sendO recvO k quitAt iter m hUP hq hl hs]
                exact LoopTrace.sendFail l sess.state hl
            | ok b =>
                cases hr : recvO k with
                | closed =>
                    rw [runLoop_recv_closed sess l rest sendO recvO k quitAt iter b
                      hUP hq hl hs hr]
                    exact LoopTrace.step l sess.state sess.state [] hl LoopTrace.done
                | err m =>
                    rw [runLoop_recv_err sess l rest sendO recvO k quitAt iter b m
                      hUP hq hl hs hr]
                    exact LoopTrace.step l sess.state sess.state [] hl LoopTrace.done
                | ok resp =>
                    by_cases hresp : resp = ""
                    · subst hresp
                      rw [runLoop_recv_ok_empty sess l rest sendO recvO k quitAt iter b
                        hUP hq hl hs hr]
                      exact LoopTrace.step l sess.state sess.state [] hl LoopTrace.done
                    · rw [runLoop_recv_ok sess l rest sendO recvO k quitAt iter b resp
                        hUP hq hl hs hr hresp]
                      exact LoopTrace.step l sess.state sess.state _ hl
                        (ih sess sendO recvO (k + 1) quitAt (iter + 1))
      · rw [runLoop_not_up sess (l :: rest) sendO recvO k quitAt iter hUP]
        exact LoopTrace.done

/-- The lines actually sent are exactly the non-empty lines among the
prefix of stdin lines the loop consumed before stopping. -/
theorem runLoop_sent (lines : List String) :
    ∀ (sess : Session) (sendO : Nat → SendOutcome) (recvO : Nat → RecvOutcome)
      (k : Nat) (quitAt : Nat → Bool) (iter : Nat), ∃ m : Nat,
      sentLines (runLoop sess lines sendO recvO k quitAt iter).2.2 =
        (lines.take m).filter (fun s => !(s == "")) := by
  induction lines with
  | nil =>
      intro sess sendO recvO k quitAt iter
      refine ⟨0, ?_⟩
      by_cases hUP : sess.state = IPKCPCState.UP
      · rw [runLoop_nil sess sendO recvO k quitAt iter hUP]; rfl
      · rw [runLoop_not_up sess [] sendO recvO k quitAt iter hUP]; rfl
  | cons l rest ih =>
      intro sess sendO recvO k quitAt iter
      by_cases hUP : sess.state = IPKCPCState.UP
      · by_cases hq : quitAt iter = true
        · refine ⟨0, ?_⟩
          rw [runLoop_quit sess (l :: rest) sendO recvO k quitAt iter hUP hq]; rfl
        · rw [Bool.not_eq_true] at hq
          by_cases hl : l = ""
          · subst hl
            rw [runLoop_empty_line sess rest sendO recvO k quitAt iter hUP hq]
            obtain ⟨m, hm⟩ := ih sess sendO recvO k quitAt (iter + 1)
            exact ⟨m + 1, by simpa using hm⟩
          · have hlb : (l == "") = false := by
              simpa using hl
            cases hs : sendO k with
            | err m =>
                refine ⟨1, ?_⟩
                rw [runLoop_send_err sess l rest sendO recvO k quitAt iter m hUP hq hl hs]
                simp [sentLines, hlb]
            | ok b =>
                cases hr : recvO k with
                | closed =>
                    refine ⟨1, ?_⟩
                    rw [runLoop_recv_closed sess l rest sendO recvO k quitAt iter b
                      hUP hq hl hs hr]
                    simp [sentLines, hlb]
                | err m =>
                    refine ⟨1, ?_⟩
                    rw [runLoop_recv_err sess l rest sendO recvO k quitAt iter b m
                      hUP hq hl hs hr]
                    simp [sentLines, hlb]
                | ok resp =>
                    by_cases hresp : resp = ""
                    · subst hresp
                      refine ⟨1, ?_⟩
                      rw [runLoop_recv_ok_empty sess l rest sendO recvO k quitAt iter b
                        hUP hq hl hs hr]
                      simp [sentLines, hlb]
                    · rw [runLoop_recv_ok sess l rest sendO recvO k quitAt iter b resp
                        hUP hq hl hs hr hresp]
                      obtain ⟨m, hm⟩ := ih sess sendO recvO (k + 1) quitAt (iter + 1)
                      refine ⟨m + 1, ?_⟩
                      simp [sentLines, hlb, hm]
      · refine ⟨0, ?_⟩
        rw [runLoop_not_up sess (l :: rest) sendO recvO k quitAt iter hUP]; rfl

/-- Every send and every receive in a loop trace was issued with the
session in state `UP`. -/
theorem runLoop_states (lines : List String) :
    ∀ (sess : Session) (sendO : Nat → SendOutcome) (recvO : Nat → RecvOutcome)
      (k : Nat) (quitAt : Nat → Bool) (iter : Nat)
      (ev : Event), ev ∈ (runLoop sess lines sendO recvO k quitAt iter).2.2 →
      (∀ l st, ev = Event.sendEv l st → st = IPKCPCState.UP) ∧
      (∀ st, ev = Event.recvEv st → st = IPKCPCState.UP) := by
  induction lines with
  | nil =>
      intro sess sendO recvO k quitAt iter ev hev
      by_cases hUP : sess.state = IPKCPCState.UP
      · rw [runLoop_nil sess sendO recvO k quitAt iter hUP] at hev
        simp at hev
        subst hev
        exact ⟨(fun l st h => nomatch h), (fun st h => nomatch h)⟩
      · rw [runLoop_not_up sess [] sendO recvO k quitAt iter hUP] at hev
        simp at hev
  | cons l rest ih =>
      intro sess sendO recvO k quitAt iter ev hev
      by_cases hUP : sess.state = IPKCPCState.UP
      · by_cases hq : quitAt iter = true
        · rw [runLoop_quit sess (l :: rest) sendO recvO k quitAt iter hUP hq] at hev
          simp at hev
          subst hev
          exact ⟨(fun l st h => nomatch h), (fun st h => nomatch h)⟩
        · rw [Bool.not_eq_true] at hq
          by_cases hl : l = ""
          · subst hl
            rw [runLoop_empty_line sess rest sendO recvO k quitAt iter hUP hq] at hev
            exact ih sess sendO recvO k quitAt (iter + 1) ev hev
          · cases hs : sendO k with
            | err m =>
                rw [runLoop_send_err sess l rest sendO recvO k quitAt iter m
                  hUP hq hl hs] at hev
                simp at hev
                subst hev
                exact ⟨(fun l' st h => by cases h; exact hUP), (fun st h => nomatch h)⟩
            | ok b =>
                cases hr : recvO k with
                | closed =>
                    rw [runLoop_recv_closed sess l rest sendO recvO k quitAt iter b
                      hUP hq hl hs hr] at hev
                    simp at hev
                    rcases hev with hev | hev <;> subst hev
                    · exact ⟨(fun l' st h => by cases h; exact hUP), (fun st h => nomatch h)⟩
                    · exact ⟨(fun l' st h => nomatch h), (fun st h => by cases h; exact hUP)⟩
                | err m =>
                    rw [runLoop_recv_err sess l rest sendO recvO k quitAt iter b m
                      hUP hq hl hs hr] at hev
                    simp at hev
                    rcases hev with hev | hev <;> subst hev
                    · exact ⟨(fun l' st h => by cases h; exact hUP), (fun st h => nomatch h)⟩
                    · exact ⟨(fun l' st h => nomatch h), (fun st h => by cases h; exact hUP)⟩
                | ok resp =>
                    by_cases hresp : resp = ""
                    · subst hresp
                      rw [runLoop_recv_ok_empty sess l rest sendO recvO k quitAt iter b
                        hUP hq hl hs hr] at hev
                      simp at hev
                      rcases hev with hev | hev <;> subst hev
                      · exact ⟨(fun l' st h => by cases h; exact hUP), (fun st h => nomatch h)⟩
                      · exact ⟨(fun l' st h => nomatch h), (fun st h => by cases h; exact hUP)⟩
                    · rw [runLoop_recv_ok sess l rest sendO recvO k quitAt iter b resp
                        hUP hq hl hs hr hresp] at hev
                      simp at hev
                      rcases hev with hev | hev | hev
                      · subst hev
                        exact ⟨(fun l' st h => by cases h; exact hUP), (fun st h => nomatch h)⟩
                      · subst hev
                        exact ⟨(fun l' st h => nomatch h), (fun st h => by cases h; exact hUP)⟩
                      · exact ih sess sendO recvO (k + 1) quitAt (iter + 1) ev hev
      · rw [runLoop_not_up sess (l :: rest) sendO recvO k quitAt iter hUP] at hev
        simp at hev

/-- Under oracles where every exchange succeeds with a non-empty reply,
the loop always terminates through `disconnect()`: the final session is
`DOWN` with the error message untouched, the disconnect status string is
the last stdout item, and the disconnect is the last trace event. -/
theorem runLoop_goodnet (lines : List String) :
    ∀ (sess : Session) (sendO : Nat → SendOutcome) (recvO : Nat → RecvOutcome)
      (k : Nat) (quitAt : Nat → Bool) (iter : Nat),
      sess.state = IPKCPCState.UP → GoodNet sendO recvO →
      ∃ preOut preEv,
        runLoop sess lines sendO recvO k quitAt iter =
          ({ state := IPKCPCState.DOWN, error_msg := sess.error_msg },
            preOut ++ [disconnectStatusMsg], preEv ++ [Event.discEv]) := by
  induction lines with
  | nil =>
      intro sess sendO recvO k quitAt iter hUP _
      exact ⟨[], [], runLoop_nil sess sendO recvO k quitAt iter hUP⟩
  | cons l rest ih =>
      intro sess sendO recvO k quitAt iter hUP hgood
      by_cases hq : quitAt iter = true
      · exact ⟨[], [], runLoop_quit sess (l :: rest) sendO recvO k quitAt iter hUP hq⟩
      · rw [Bool.not_eq_true] at hq
        by_cases hl : l = ""
        · subst hl
          rw [runLoop_empty_line sess rest sendO recvO k quitAt iter hUP hq]
          exact ih sess sendO recvO k quitAt (iter + 1) hUP hgood
        · obtain ⟨⟨b, hs⟩, r, hr, hrne⟩ := hgood k
          rw [runLoop_recv_ok sess l rest sendO recvO k quitAt iter b r
            hUP hq hl hs hr hrne]
          obtain ⟨preOut, preEv, hrec⟩ := ih sess sendO recvO (k + 1) quitAt (iter + 1) hUP hgood
          refine ⟨r :: preOut, Event.sendEv l sess.state :: Event.recvEv sess.state :: preEv, ?_⟩
          simp [hrec]

/-- With well-formed arguments and no constructor/connect failure, `main`
reduces to the interactive loop on a fresh `UP` session followed by the
final exit check. -/
theorem ipkcpcMain_connected (opts : List OptEvent) (lines : List String)
    (sendO : Nat → SendOutcome) (recvO : Nat → RecvOutcome) (quitAt : Nat → Bool)
    (host : String) (port : Int) (proto : String)
    (hfold : foldOpts opts = some (host, port, proto)) (hh : ¬ host = "")
    (hp : ¬ port = 0) (hm : proto = "tcp" ∨ proto = "udp") :
    ipkcpcMain opts none none lines sendO recvO quitAt =
      afterLoop (runLoop { state := IPKCPCState.UP, error_msg := "" }
        lines sendO recvO 0 quitAt 0) := by
  have hm1 : ¬ proto = "" := by rcases hm with h | h <;> simp [h]
  have hm2 : ¬ (¬ proto = "tcp" ∧ ¬ proto = "udp") := by
    rcases hm with h | h <;> simp [h]
  unfold ipkcpcMain
  rw [hfold]
  simp only [if_neg hh, if_neg hp, if_neg hm1, if_neg hm2, Session.connect]
  rw [if_neg (by decide)]

/-- With well-formed arguments and a constructor that leaves the client
`ERRORED`, `main` reduces to the error report of lines 110-113. -/
theorem ipkcpcMain_ctor_err (opts : List OptEvent) (connErr : Option String)
    (lines : List String)
    (sendO : Nat → SendOutcome) (recvO : Nat → RecvOutcome) (quitAt : Nat → Bool)
    (host : String) (port : Int) (proto : String) (msg : String)
    (hfold : foldOpts opts = some (host, port, proto)) (hh : ¬ host = "")
    (hp : ¬ port = 0) (hm : proto = "tcp" ∨ proto = "udp") :
    ipkcpcMain opts (some msg) connErr lines sendO recvO quitAt =
      { exitCode := 1, stdout := [], stderr := ["!ERR! " ++ msg],
        sessionCreated := true, connectAttempted := false, events := [],
        finalState := some IPKCPCState.ERRORED, finalErrMsg := msg } := by
  have hm1 : ¬ proto = "" := by rcases hm with h | h <;> simp [h]
  have hm2 : ¬ (¬ proto = "tcp" ∧ ¬ proto = "udp") := by
    rcases hm with h | h <;> simp [h]
  unfold ipkcpcMain
  rw [hfold]
  simp only [if_neg hh, if_neg hp, if_neg hm1, if_neg hm2]

/-- Claim C1: once cancellation is observed at the start of an iteration
(the SIGINT flag reads true, or end of input was reached), the loop calls
`disconnect()`, prints its status string, and stops; no `send` — indeed
no network call at all — is issued from that point on, the check coming
before any network I/O of the iteration. -/
theorem claim_C1 (sess : Session) (lines : List String)
    (sendO : Nat → SendOutcome) (recvO : Nat → RecvOutcome) (k : Nat)
    (quitAt : Nat → Bool) (iter : Nat)
    (hUP : sess.state = IPKCPCState.UP)
    (hcancel : quitAt iter = true ∨ lines = []) :
    runLoop sess lines sendO recvO k quitAt iter =
      ({ state := IPKCPCState.DOWN, error_msg := sess.error_msg },
        [disconnectStatusMsg], [Event.discEv]) ∧
    (∀ l st, Event.sendEv l st ∉ (runLoop sess lines sendO recvO k quitAt iter).2.2) ∧
    (∀ st, Event.recvEv st ∉ (runLoop sess lines sendO recvO k quitAt iter).2.2) := by
  have heq : runLoop sess lines sendO recvO k quitAt iter =
      ({ state := IPKCPCState.DOWN, error_msg := sess.error_msg },
        [disconnectStatusMsg], [Event.discEv]) := by
    rcases hcancel with hq | hnil
    · exact runLoop_quit sess lines sendO recvO k quitAt iter hUP hq
    · subst hnil
      exact runLoop_nil sess sendO recvO k quitAt iter hUP
  refine ⟨heq, ?_, ?_⟩ <;> rw [heq] <;> simp

theorem claim_C1_witness :
    runLoop { state := IPKCPCState.UP, error_msg := "" } ["half-typed line"]
        (fun _ => SendOutcome.ok 1) (fun _ => RecvOutcome.ok "R") 0 (fun _ => true) 0 =
      ({ state := IPKCPCState.DOWN, error_msg := "" },
        [disconnectStatusMsg], [Event.discEv]) :=
  (claim_C1 { state := IPKCPCState.UP, error_msg := "" } ["half-typed line"]
    (fun _ => SendOutcome.ok 1) (fun _ => RecvOutcome.ok "R") 0 (fun _ => true) 0
    rfl (Or.inl rfl)).1

/-- Claim C2: whenever a client object was created, the run exits 0
exactly when the final client state is `DOWN`; any other final state
makes the run print `!ERR! ` followed by the recorded last error to
stderr and exit with the failure code 1. -/
theorem claim_C2 (opts : List OptEvent) (ctorErr connErr : Option String)
    (lines : List String) (sendO : Nat → SendOutcome) (recvO : Nat → RecvOutcome)
    (quitAt : Nat → Bool)
    (hsess : (ipkcpcMain opts ctorErr connErr lines sendO recvO quitAt).sessionCreated = true) :
    ((ipkcpcMain opts ctorErr connErr lines sendO recvO quitAt).exitCode = 0 ↔
      (ipkcpcMain opts ctorErr connErr lines sendO recvO quitAt).finalState =
        some IPKCPCState.DOWN) ∧
    (¬ (ipkcpcMain opts ctorErr connErr lines sendO recvO quitAt).finalState =
        some IPKCPCState.DOWN →
      (ipkcpcMain opts ctorErr connErr lines sendO recvO quitAt).exitCode = 1 ∧
      (ipkcpcMain opts ctorErr connErr lines sendO recvO quitAt).stderr =
        ["!ERR! " ++ (ipkcpcMain opts ctorErr connErr lines sendO recvO quitAt).finalErrMsg]) := by
  revert hsess
  unfold ipkcpcMain afterLoop
  cases hfold : foldOpts opts with
  | none => intro hsess; simp at hsess
  | some t =>
    obtain ⟨host, port, proto⟩ := t
    cases connErr with
    | some cmsg =>
        dsimp only [Session.connect]
        repeat' split
        all_goals intro hsess
        all_goals simp_all
    | none =>
        dsimp only [Session.connect]
        repeat' split
        all_goals intro hsess
        all_goals simp_all

theorem claim_C2_witness :
    ((ipkcpcMain [OptEvent.h "srv", OptEvent.p "1", OptEvent.m "tcp"] none none
        [] (fun _ => SendOutcome.ok 1) (fun _ => RecvOutcome.ok "R")
        (fun _ => false)).exitCode = 0 ↔
      (ipkcpcMain [OptEvent.h "srv", OptEvent.p "1", OptEvent.m "tcp"] none none
        [] (fun _ => SendOutcome.ok 1) (fun _ => RecvOutcome.ok "R")
        (fun _ => false)).finalState = some IPKCPCState.DOWN) ∧
    (¬ (ipkcpcMain [OptEvent.h "srv", OptEvent.p "1", OptEvent.m "tcp"] none none
        [] (fun _ => SendOutcome.ok 1) (fun _ => RecvOutcome.ok "R")
        (fun _ => false)).finalState = some IPKCPCState.DOWN →
      (ipkcpcMain [OptEvent.h "srv", OptEvent.p "1", OptEvent.m "tcp"] none none
        [] (fun _ => SendOutcome.ok 1) (fun _ => RecvOutcome.ok "R")
        (fun _ => false)).exitCode = 1 ∧
      (ipkcpcMain [OptEvent.h "srv", OptEvent.p "1", OptEvent.m "tcp"] none none
        [] (fun _ => SendOutcome.ok 1) (fun _ => RecvOutcome.ok "R")
        (fun _ => false)).stderr =
        ["!ERR! " ++ (ipkcpcMain [OptEvent.h "srv", OptEvent.p "1", OptEvent.m "tcp"]
          none none [] (fun _ => SendOutcome.ok 1) (fun _ => RecvOutcome.ok "R")
          (fun _ => false)).finalErrMsg]) :=
  claim_C2 [OptEvent.h "srv", OptEvent.p "1", OptEvent.m "tcp"] none none
    [] (fun _ => SendOutcome.ok 1) (fun _ => RecvOutcome.ok "R") (fun _ => false)
    (by decide)

/-- Claim C3: a `receive` that comes back empty while the session is `UP`
stops the loop with no `disconnect()` call; the session state stays `UP`
(in particular it is not `ERRORED`), the empty reply acting as the normal
termination cue. -/
theorem claim_C3 (sess : Session) (l : String) (rest : List String)
    (sendO : Nat → SendOutcome) (recvO : Nat → RecvOutcome) (k : Nat)
    (quitAt : Nat → Bool) (iter : Nat) (b : Nat)
    (hUP : sess.state = IPKCPCState.UP) (hq : quitAt iter = false)
    (hl : ¬ l = "") (hs : sendO k = SendOutcome.ok b)
    (hr : recvO k = RecvOutcome.closed) :
    runLoop sess (l :: rest) sendO recvO k quitAt iter =
      (sess, [], [Event.sendEv l sess.state, Event.recvEv sess.state]) ∧
    (runLoop sess (l :: rest) sendO recvO k quitAt iter).1.state = IPKCPCState.UP ∧
    ¬ (runLoop sess (l :: rest) sendO recvO k quitAt iter).1.state = IPKCPCState.ERRORED ∧
    Event.discEv ∉ (runLoop sess (l :: rest) sendO recvO k quitAt iter).2.2 := by
  have heq := runLoop_recv_closed sess l rest sendO recvO k quitAt iter b hUP hq hl hs hr
  refine ⟨heq, ?_, ?_, ?_⟩ <;> rw [heq] <;> simp [hUP]

theorem claim_C3_witness :
    runLoop { state := IPKCPCState.UP, error_msg := "" } ["req"]
        (fun _ => SendOutcome.ok 3) (fun _ => RecvOutcome.closed) 0 (fun _ => false) 0 =
      ({ state := IPKCPCState.UP, error_msg := "" }, [],
        [Event.sendEv "req" IPKCPCState.UP, Event.recvEv IPKCPCState.UP]) :=
  (claim_C3 { state := IPKCPCState.UP, error_msg := "" } "req" []
    (fun _ => SendOutcome.ok 3) (fun _ => RecvOutcome.closed) 0 (fun _ => false) 0 3
    rfl rfl (by decide) rfl rfl).1

/-- Claim C6: a negative `send` result stops the loop at once: no
`disconnect()` follows, no `receive` is attempted for that request, and
the session sits in `ERRORED` with the failure message recorded. -/
theorem claim_C6 (sess : Session) (l : String) (rest : List String)
    (sendO : Nat → SendOutcome) (recvO : Nat → RecvOutcome) (k : Nat)
    (quitAt : Nat → Bool) (iter : Nat) (msg : String)
    (hUP : sess.state = IPKCPCState.UP) (hq : quitAt iter = false)
    (hl : ¬ l = "") (hs : sendO k = SendOutcome.err msg) :
    runLoop sess (l :: rest) sendO recvO k quitAt iter =
      ({ state := IPKCPCState.ERRORED, error_msg := msg }, [],
        [Event.sendEv l sess.state]) ∧
    Event.discEv ∉ (runLoop sess (l :: rest) sendO recvO k quitAt iter).2.2 ∧
    (∀ st, Event.recvEv st ∉ (runLoop sess (l :: rest) sendO recvO k quitAt iter).2.2) := by
  have heq := runLoop_send_err sess l rest sendO recvO k quitAt iter msg hUP hq hl hs
  refine ⟨heq, ?_, ?_⟩ <;> rw [heq] <;> simp

theorem claim_C6_witness :
    runLoop { state := IPKCPCState.UP, error_msg := "" } ["req"]
        (fun _ => SendOutcome.err "Failed to send message!") (fun _ => RecvOutcome.closed)
        0 (fun _ => false) 0 =
      ({ state := IPKCPCState.ERRORED, error_msg := "Failed to send message!" }, [],
        [Event.sendEv "req" IPKCPCState.UP]) :=
  (claim_C6 { state := IPKCPCState.UP, error_msg := "" } "req" []
    (fun _ => SendOutcome.err "Failed to send message!") (fun _ => RecvOutcome.closed)
    0 (fun _ => false) 0 "Failed to send message!" rfl rfl (by decide) rfl).1

/-- Claim C8: in every execution of the loop, `send` and `receive` are
invoked only while the session state is `UP` — every send/receive event
in the trace carries the state `UP` it was issued in. -/
theorem claim_C8 (sess : Session) (lines : List String)
    (sendO : Nat → SendOutcome) (recvO : Nat → RecvOutcome) (k : Nat)
    (quitAt : Nat → Bool) (iter : Nat) :
    (∀ l st, Event.sendEv l st ∈ (runLoop sess lines sendO recvO k quitAt iter).2.2 →
      st = IPKCPCState.UP) ∧
    (∀ st, Event.recvEv st ∈ (runLoop sess lines sendO recvO k quitAt iter).2.2 →
      st = IPKCPCState.UP) := by
  constructor
  · intro l st h
    exact (runLoop_states lines sess sendO recvO k quitAt iter (Event.sendEv l st) h).1 l st rfl
  · intro st h
    exact (runLoop_states lines sess sendO recvO k quitAt iter (Event.recvEv st) h).2 st rfl

theorem claim_C8_witness :
    Event.sendEv "x" IPKCPCState.UP ∈
      (runLoop { state := IPKCPCState.UP, error_msg := "" } ["x"]
        (fun _ => SendOutcome.ok 1) (fun _ => RecvOutcome.ok "R") 0
        (fun _ => false) 0).2.2 ∧
    IPKCPCState.UP = IPKCPCState.UP :=
  ⟨by decide,
    (claim_C8 { state := IPKCPCState.UP, error_msg := "" } ["x"]
      (fun _ => SendOutcome.ok 1) (fun _ => RecvOutcome.ok "R") 0
      (fun _ => false) 0).1 "x" IPKCPCState.UP (by decide)⟩

/-- Sends recorded in a well-shaped trace always carry non-empty lines:
the loop never forwards an empty input line. -/
theorem loopTrace_sent_nonempty (evs : List Event) (h : LoopTrace evs) :
    ∀ l st, Event.sendEv l st ∈ evs → ¬ l = "" := by
  induction h with
  | done => intro l st hm; simp at hm
  | disc => intro l st hm; simp at hm
  | sendFail lf stf hne =>
      intro l st hm
      simp at hm
      rw [hm.1]
      exact hne
  | step lf st1 st2 rest hne htr ih =>
      intro l st hm
      simp at hm
      rcases hm with ⟨h1, h2⟩ | hm
      · rw [h1]; exact hne
      · exact ih l st hm

/-- If no `-h` event occurs, the hostname accumulator survives the fold. -/
theorem foldOptsAux_no_h (opts : List OptEvent) :
    ∀ (h0 : String) (p0 : Int) (m0 : String), (∀ v, OptEvent.h v ∉ opts) →
      foldOptsAux opts h0 p0 m0 = none ∨
      ∃ p m, foldOptsAux opts h0 p0 m0 = some (h0, p, m) := by
  induction opts with
  | nil => intro h0 p0 m0 _; exact Or.inr ⟨p0, m0, rfl⟩
  | cons e rest ih =>
      intro h0 p0 m0 hno
      cases e with
      | h v => exact absurd (List.mem_cons_self _ _) (hno v)
      | p v =>
          have := ih h0 (atoi v) m0 (fun v' hv' => hno v' (List.mem_cons_of_mem _ hv'))
          simpa [foldOptsAux] using this
      | m v =>
          have := ih h0 p0 v (fun v' hv' => hno v' (List.mem_cons_of_mem _ hv'))
          simpa [foldOptsAux] using this
      | invalid => exact Or.inl rfl

/-- If no `-p` event occurs, the port accumulator survives the fold. -/
theorem foldOptsAux_no_p (opts : List OptEvent) :
    ∀ (h0 : String) (p0 : Int) (m0 : String), (∀ v, OptEvent.p v ∉ opts) →
      foldOptsAux opts h0 p0 m0 = none ∨
      ∃ h m, foldOptsAux opts h0 p0 m0 = some (h, p0, m) := by
  induction opts with
  | nil => intro h0 p0 m0 _; exact Or.inr ⟨h0, m0, rfl⟩
  | cons e rest ih =>
      intro h0 p0 m0 hno
      cases e with
      | p v => exact absurd (List.mem_cons_self _ _) (hno v)
      | h v =>
          have := ih v p0 m0 (fun v' hv' => hno v' (List.mem_cons_of_mem _ hv'))
          simpa [foldOptsAux] using this
      | m v =>
          have := ih h0 p0 v (fun v' hv' => hno v' (List.mem_cons_of_mem _ hv'))
          simpa [foldOptsAux] using this
      | invalid => exact Or.inl rfl

/-- If no `-m` event occurs, the protocol accumulator survives the fold. -/
theorem foldOptsAux_no_m (opts : List OptEvent) :
    ∀ (h0 : String) (p0 : Int) (m0 : String), (∀ v, OptEvent.m v ∉ opts) →
      foldOptsAux opts h0 p0 m0 = none ∨
      ∃ h p, foldOptsAux opts h0 p0 m0 = some (h, p, m0) := by
  induction opts with
  | nil => intro h0 p0 m0 _; exact Or.inr ⟨h0, p0, rfl⟩
  | cons e rest ih =>
      intro h0 p0 m0 hno
      cases e with
      | m v => exact absurd (List.mem_cons_self _ _) (hno v)
      | h v =>
          have := ih v p0 m0 (fun v' hv' => hno v' (List.mem_cons_of_mem _ hv'))
          simpa [foldOptsAux] using this
      | p v =>
          have := ih h0 (atoi v) m0 (fun v' hv' => hno v' (List.mem_cons_of_mem _ hv'))
          simpa [foldOptsAux] using this
      | invalid => exact Or.inl rfl

/-- Any run whose folded options fail one of the four validation checks
(or hit an invalid option) exits 1 with the usage line and never creates
a client. -/
theorem ipkcpcMain_usage (opts : List OptEvent) (ctorErr connErr : Option String)
    (lines : List String) (sendO : Nat → SendOutcome) (recvO : Nat → RecvOutcome)
    (quitAt : Nat → Bool)
    (hbad : foldOpts opts = none ∨ ∃ host port proto,
      foldOpts opts = some (host, port, proto) ∧
      (host = "" ∨ port = 0 ∨ proto = "" ∨ (¬ proto = "tcp" ∧ ¬ proto = "udp"))) :
    (ipkcpcMain opts ctorErr connErr lines sendO recvO quitAt).exitCode = 1 ∧
    usageMsg ∈ (ipkcpcMain opts ctorErr connErr lines sendO recvO quitAt).stderr ∧
    (ipkcpcMain opts ctorErr connErr lines sendO recvO quitAt).sessionCreated = false ∧
    (ipkcpcMain opts ctorErr connErr lines sendO recvO quitAt).events = [] := by
  unfold ipkcpcMain
  rcases hbad with hnone | ⟨host, port, proto, hfold, hcase⟩
  · rw [hnone]
    exact ⟨rfl, by simp, rfl, rfl⟩
  · rw [hfold]
    dsimp only
    by_cases hh : host = ""
    · rw [if_pos hh]
      exact ⟨rfl, by simp, rfl, rfl⟩
    · rw [if_neg hh]
      by_cases hp : port = 0
      · rw [if_pos hp]
        exact ⟨rfl, by simp, rfl, rfl⟩
      · rw [if_neg hp]
        by_cases hmo : proto = ""
        · rw [if_pos hmo]
          exact ⟨rfl, by simp, rfl, rfl⟩
        · rw [if_neg hmo]
          have hmode : ¬ proto = "tcp" ∧ ¬ proto = "udp" := by
            rcases hcase with h | h | h | h
            · exact absurd h hh
            · exact absurd h hp
            · exact absurd h hmo
            · exact h
          rw [if_pos hmode]
          exact ⟨rfl, by simp, rfl, rfl⟩

/-- With a non-empty hostname and a folded port of 0, the run dies on the
`port == 0` check of `main.cpp`. -/
theorem ipkcpcMain_port_zero (opts : List OptEvent) (ctorErr connErr : Option String)
    (lines : List String) (sendO : Nat → SendOutcome) (recvO : Nat → RecvOutcome)
    (quitAt : Nat → Bool) (host proto : String)
    (hfold : foldOpts opts = some (host, 0, proto)) (hh : ¬ host = "") :
    ipkcpcMain opts ctorErr connErr lines sendO recvO quitAt =
      { exitCode := 1, stdout := [], stderr := ["!ERR! Port not specified!", usageMsg],
        sessionCreated := false, connectAttempted := false, events := [],
        finalState := none, finalErrMsg := "" } := by
  unfold ipkcpcMain
  rw [hfold]
  dsimp only
  rw [if_neg hh, if_pos rfl]

/-- Once the four validation checks pass, the client constructor always
runs, whatever the constructor/connect/loop outcomes. -/
theorem ipkcpcMain_session_created (opts : List OptEvent)
    (ctorErr connErr : Option String) (lines : List String)
    (sendO : Nat → SendOutcome) (recvO : Nat → RecvOutcome) (quitAt : Nat → Bool)
    (host : String) (port : Int) (proto : String)
    (hfold : foldOpts opts = some (host, port, proto)) (hh : ¬ host = "")
    (hp : ¬ port = 0) (hm : proto = "tcp" ∨ proto = "udp") :
    (ipkcpcMain opts ctorErr connErr lines sendO recvO quitAt).sessionCreated = true := by
  have hm1 : ¬ proto = "" := by rcases hm with h | h <;> simp [h]
  have hm2 : ¬ (¬ proto = "tcp" ∧ ¬ proto = "udp") := by
    rcases hm with h | h <;> simp [h]
  unfold ipkcpcMain
  rw [hfold]
  simp only [if_neg hh, if_neg hp, if_neg hm1, if_neg hm2]
  cases ctorErr with
  | some msg => rfl
  | none =>
      cases connErr with
      | some cmsg =>
          dsimp only [Session.connect]
          rw [if_pos (Or.inl rfl)]
      | none =>
          dsimp only [Session.connect]
          rw [if_neg (by decide)]
          unfold afterLoop
          split <;> rfl

/-- Claim C4: when stdin runs out or an interrupt is observed while the
session is `UP` (which, under oracles where every exchange succeeds, is
the only way the loop ends), termination is routed through
`disconnect()`: its status string is the last stdout line, the final
state is `DOWN`, the process exits 0, and no empty or pending line is
ever sent — an interrupt observed before the first iteration means
nothing is sent at all. -/
theorem claim_C4 (opts : List OptEvent) (lines : List String)
    (sendO : Nat → SendOutcome) (recvO : Nat → RecvOutcome) (quitAt : Nat → Bool)
    (host : String) (port : Int) (proto : String)
    (hfold : foldOpts opts = some (host, port, proto)) (hh : ¬ host = "")
    (hp : ¬ port = 0) (hm : proto = "tcp" ∨ proto = "udp")
    (hgood : GoodNet sendO recvO) :
    (ipkcpcMain opts none none lines sendO recvO quitAt).exitCode = 0 ∧
    (ipkcpcMain opts none none lines sendO recvO quitAt).finalState =
      some IPKCPCState.DOWN ∧
    (∃ pre, (ipkcpcMain opts none none lines sendO recvO quitAt).stdout =
      pre ++ [disconnectStatusMsg]) ∧
    (∃ preEv, (ipkcpcMain opts none none lines sendO recvO quitAt).events =
      preEv ++ [Event.discEv]) ∧
    (∀ l st, Event.sendEv l st ∈ (ipkcpcMain opts none none lines sendO recvO quitAt).events →
      ¬ l = "") ∧
    (quitAt 0 = true →
      (ipkcpcMain opts none none lines sendO recvO quitAt).events = [Event.discEv]) := by
  have hconn := ipkcpcMain_connected opts lines sendO recvO quitAt host port proto
    hfold hh hp hm
  obtain ⟨preOut, preEv, heq⟩ := runLoop_goodnet lines
    { state := IPKCPCState.UP, error_msg := "" } sendO recvO 0 quitAt 0 rfl hgood
  have ht := runLoop_trace lines { state := IPKCPCState.UP, error_msg := "" }
    sendO recvO 0 quitAt 0
  rw [heq] at ht
  rw [hconn, heq]
  unfold afterLoop
  rw [if_neg (by simp)]
  refine ⟨rfl, rfl, ⟨preOut, rfl⟩, ⟨preEv, rfl⟩, ?_, ?_⟩
  · exact fun l st hmem => loopTrace_sent_nonempty _ ht l st hmem
  · intro hq0
    have h2 := runLoop_quit { state := IPKCPCState.UP, error_msg := "" } lines
      sendO recvO 0 quitAt 0 rfl hq0
    rw [heq] at h2
    have h3 := congrArg (fun t => t.2.2) h2
    simpa using h3

theorem claim_C4_witness :
    (ipkcpcMain [OptEvent.h "srv", OptEvent.p "2023", OptEvent.m "tcp"] none none
      ["hello", ""] (fun _ => SendOutcome.ok 5) (fun _ => RecvOutcome.ok "HELLO")
      (fun _ => false)).exitCode = 0 :=
  (claim_C4 [OptEvent.h "srv", OptEvent.p "2023", OptEvent.m "tcp"] ["hello", ""]
    (fun _ => SendOutcome.ok 5) (fun _ => RecvOutcome.ok "HELLO") (fun _ => false)
    "srv" 2023 "tcp" (by decide) (by decide) (by decide) (Or.inl rfl)
    (fun j => ⟨⟨5, rfl⟩, "HELLO", rfl, by decide⟩)).1

/-- Claim C5: every trace of the loop consists of per-line groups — each
non-empty processed line contributes exactly one send followed by at most
one receive, empty lines contribute nothing — and the multiset of sent
lines is precisely the non-empty lines of the consumed stdin prefix, in
order. -/
theorem claim_C5 (sess : Session) (lines : List String)
    (sendO : Nat → SendOutcome) (recvO : Nat → RecvOutcome) (k : Nat)
    (quitAt : Nat → Bool) (iter : Nat) :
    LoopTrace (runLoop sess lines sendO recvO k quitAt iter).2.2 ∧
    (∀ l st, Event.sendEv l st ∈ (runLoop sess lines sendO recvO k quitAt iter).2.2 →
      ¬ l = "") ∧
    ∃ m : Nat, sentLines (runLoop sess lines sendO recvO k quitAt iter).2.2 =
      (lines.take m).filter (fun s => !(s == "")) :=
  ⟨runLoop_trace lines sess sendO recvO k quitAt iter,
   loopTrace_sent_nonempty _ (runLoop_trace lines sess sendO recvO k quitAt iter),
   runLoop_sent lines sess sendO recvO k quitAt iter⟩

/-- Claim C7: an argument vector with no `-h`, no `-p`, or no `-m` event,
or whose folded mode is neither `tcp` nor `udp`, makes the program print
the usage line to stderr and exit 1 before any client object exists (and
before any network call). -/
theorem claim_C7 (opts : List OptEvent) (ctorErr connErr : Option String)
    (lines : List String) (sendO : Nat → SendOutcome) (recvO : Nat → RecvOutcome)
    (quitAt : Nat → Bool)
    (hmiss : (∀ v, OptEvent.h v ∉ opts) ∨ (∀ v, OptEvent.p v ∉ opts) ∨
      (∀ v, OptEvent.m v ∉ opts) ∨
      (∃ host port proto, foldOpts opts = some (host, port, proto) ∧
        ¬ proto = "tcp" ∧ ¬ proto = "udp")) :
    (ipkcpcMain opts ctorErr connErr lines sendO recvO quitAt).exitCode = 1 ∧
    usageMsg ∈ (ipkcpcMain opts ctorErr connErr lines sendO recvO quitAt).stderr ∧
    (ipkcpcMain opts ctorErr connErr lines sendO recvO quitAt).sessionCreated = false ∧
    (ipkcpcMain opts ctorErr connErr lines sendO recvO quitAt).events = [] := by
  apply ipkcpcMain_usage
  rcases hmiss with h | h | h | ⟨host, port, proto, hfold, h1, h2⟩
  · rcases foldOptsAux_no_h opts "" 0 "" h with hn | ⟨p, m, hs⟩
    · exact Or.inl hn
    · exact Or.inr ⟨"", p, m, hs, Or.inl rfl⟩
  · rcases foldOptsAux_no_p opts "" 0 "" h with hn | ⟨h', m, hs⟩
    · exact Or.inl hn
    · exact Or.inr ⟨h', 0, m, hs, Or.inr (Or.inl rfl)⟩
  · rcases foldOptsAux_no_m opts "" 0 "" h with hn | ⟨h', p, hs⟩
    · exact Or.inl hn
    · exact Or.inr ⟨h', p, "", hs, Or.inr (Or.inr (Or.inl rfl))⟩
  · exact Or.inr ⟨host, port, proto, hfold, Or.inr (Or.inr (Or.inr ⟨h1, h2⟩))⟩

theorem claim_C7_witness :
    (ipkcpcMain [] none none [] (fun _ => SendOutcome.ok 1)
      (fun _ => RecvOutcome.closed) (fun _ => false)).exitCode = 1 ∧
    usageMsg ∈ (ipkcpcMain [] none none [] (fun _ => SendOutcome.ok 1)
      (fun _ => RecvOutcome.closed) (fun _ => false)).stderr ∧
    (ipkcpcMain [] none none [] (fun _ => SendOutcome.ok 1)
      (fun _ => RecvOutcome.closed) (fun _ => false)).sessionCreated = false ∧
    (ipkcpcMain [] none none [] (fun _ => SendOutcome.ok 1)
      (fun _ => RecvOutcome.closed) (fun _ => false)).events = [] :=
  claim_C7 [] none none [] (fun _ => SendOutcome.ok 1) (fun _ => RecvOutcome.closed)
    (fun _ => false) (Or.inl (by simp))

/-- Claim C9: the port option goes through `atoi` and is then only
compared against 0, so `-p 0` and any non-numeric port argument are
rejected as "Port not specified!" with a failure exit, while any argument
`atoi` maps to a non-zero value — negative numbers and numbers above
65535 included — passes validation and reaches client construction. -/
theorem claim_C9 (hostv portv modev : String) (ctorErr connErr : Option String)
    (lines : List String) (sendO : Nat → SendOutcome) (recvO : Nat → RecvOutcome)
    (quitAt : Nat → Bool)
    (hh : ¬ hostv = "") (hm : modev = "tcp" ∨ modev = "udp") :
    ((portv = "0" ∨ numericStart portv = false) →
      ipkcpcMain [OptEvent.h hostv, OptEvent.p portv, OptEvent.m modev] ctorErr connErr
          lines sendO recvO quitAt =
        { exitCode := 1, stdout := [], stderr := ["!ERR! Port not specified!", usageMsg],
          sessionCreated := false, connectAttempted := false, events := [],
          finalState := none, finalErrMsg := "" }) ∧
    (¬ atoi portv = 0 →
      (ipkcpcMain [OptEvent.h hostv, OptEvent.p portv, OptEvent.m modev] ctorErr connErr
          lines sendO recvO quitAt).sessionCreated = true) := by
  have hfold : foldOpts [OptEvent.h hostv, OptEvent.p portv, OptEvent.m modev] =
      some (hostv, atoi portv, modev) := rfl
  constructor
  · intro hz
    have hz0 : atoi portv = 0 := by
      rcases hz with hz | hz
      · rw [hz]; decide
      · exact atoi_eq_zero_of_not_numericStart portv hz
    have hfold0 : foldOpts [OptEvent.h hostv, OptEvent.p portv, OptEvent.m modev] =
        some (hostv, 0, modev) := by rw [hfold, hz0]
    exact ipkcpcMain_port_zero _ ctorErr connErr lines sendO recvO quitAt
      hostv modev hfold0 hh
  · intro hnz
    exact ipkcpcMain_session_created _ ctorErr connErr lines sendO recvO quitAt
      hostv (atoi portv) modev hfold hh hnz hm

theorem claim_C9_witness :
    ipkcpcMain [OptEvent.h "srv", OptEvent.p "abc", OptEvent.m "tcp"] none none
        [] (fun _ => SendOutcome.ok 1) (fun _ => RecvOutcome.closed) (fun _ => false) =
      { exitCode := 1, stdout := [], stderr := ["!ERR! Port not specified!", usageMsg],
        sessionCreated := false, connectAttempted := false, events := [],
        finalState := none, finalErrMsg := "" } ∧
    ipkcpcMain [OptEvent.h "srv", OptEvent.p "0", OptEvent.m "tcp"] none none
        [] (fun _ => SendOutcome.ok 1) (fun _ => RecvOutcome.closed) (fun _ => false) =
      { exitCode := 1, stdout := [], stderr := ["!ERR! Port not specified!", usageMsg],
        sessionCreated := false, connectAttempted := false, events := [],
        finalState := none, finalErrMsg := "" } ∧
    (ipkcpcMain [OptEvent.h "srv", OptEvent.p "-5", OptEvent.m "tcp"] none none
        [] (fun _ => SendOutcome.ok 1) (fun _ => RecvOutcome.closed)
        (fun _ => false)).sessionCreated = true ∧
    (ipkcpcMain [OptEvent.h "srv", OptEvent.p "70000", OptEvent.m "tcp"] none none
        [] (fun _ => SendOutcome.ok 1) (fun _ => RecvOutcome.closed)
        (fun _ => false)).sessionCreated = true :=
  ⟨(claim_C9 "srv" "abc" "tcp" none none [] (fun _ => SendOutcome.ok 1)
      (fun _ => RecvOutcome.closed) (fun _ => false) (by decide) (Or.inl rfl)).1
      (Or.inr (by decide)),
   (claim_C9 "srv" "0" "tcp" none none [] (fun _ => SendOutcome.ok 1)
      (fun _ => RecvOutcome.closed) (fun _ => false) (by decide) (Or.inl rfl)).1
      (Or.inl rfl),
   (claim_C9 "srv" "-5" "tcp" none none [] (fun _ => SendOutcome.ok 1)
      (fun _ => RecvOutcome.closed) (fun _ => false) (by decide) (Or.inl rfl)).2
      (by decide),
   (claim_C9 "srv" "70000" "tcp" none none [] (fun _ => SendOutcome.ok 1)
      (fun _ => RecvOutcome.closed) (fun _ => false) (by decide) (Or.inl rfl)).2
      (by decide)⟩

/-- Claim C10: the client can already be `ERRORED` right after
construction; the program then prints `!ERR! ` plus the recorded message
to stderr and exits 1 without ever calling `connect()` (and without any
network call). -/
theorem claim_C10 (opts : List OptEvent) (connErr : Option String)
    (lines : List String) (sendO : Nat → SendOutcome) (recvO : Nat → RecvOutcome)
    (quitAt : Nat → Bool) (host : String) (port : Int) (proto : String) (msg : String)
    (hfold : foldOpts opts = some (host, port, proto)) (hh : ¬ host = "")
    (hp : ¬ port = 0) (hm : proto = "tcp" ∨ proto = "udp") :
    (ipkcpcMain opts (some msg) connErr lines sendO recvO quitAt).finalState =
      some IPKCPCState.ERRORED ∧
    (ipkcpcMain opts (some msg) connErr lines sendO recvO quitAt).exitCode = 1 ∧
    (ipkcpcMain opts (some msg) connErr lines sendO recvO quitAt).stderr =
      ["!ERR! " ++ msg] ∧
    (ipkcpcMain opts (some msg) connErr lines sendO recvO quitAt).connectAttempted = false ∧
    (ipkcpcMain opts (some msg) connErr lines sendO recvO quitAt).events = [] := by
  rw [ipkcpcMain_ctor_err opts connErr lines sendO recvO quitAt host port proto msg
    hfold hh hp hm]
  exact ⟨rfl, rfl, rfl, rfl, rfl⟩

theorem claim_C10_witness :
    (ipkcpcMain [OptEvent.h "srv", OptEvent.p "2023", OptEvent.m "udp"]
      (some "Failed to resolve hostname!") none [] (fun _ => SendOutcome.ok 1)
      (fun _ => RecvOutcome.closed) (fun _ => false)).finalState =
      some IPKCPCState.ERRORED :=
  (claim_C10 [OptEvent.h "srv", OptEvent.p "2023", OptEvent.m "udp"] none []
    (fun _ => SendOutcome.ok 1) (fun _ => RecvOutcome.closed) (fun _ => false)
    "srv" 2023 "udp" "Failed to resolve hostname!" (by decide) (by decide) (by decide)
    (Or.inr rfl)).1

end IPKCP
